import Mathlib

/-!
Verification development for the PuLID FLUX serving script (`api.py`).

The script wires a pretrained diffusion pipeline (external libraries
`flux.sampling`, `flux.util`, `pulid.pipeline_flux`) to a FastAPI HTTP
layer.  The external library calls are opaque: we embed them as free
constructors of a symbolic value algebra `Val`, so a term records exactly
which external operation produced it and from which inputs.  Device
placement and the call sequence of `FluxGenerator.generate_image` are
recorded as an explicit event trace.
-/

namespace PuLIDApi

/-- A device: the script only ever distinguishes CPU from the CUDA GPU. -/
inductive Dev where
  | cpu
  | gpu
deriving DecidableEq

/-- The named sub-modules whose placement `generate_image` manipulates:
`self.t5`, `self.clip`, the PuLID components (`self.pulid_model`),
the diffusion model (`self.model`) and the autoencoder decoder
(`self.ae.decoder`). -/
inductive Module where
  | t5
  | clip
  | pulid
  | fluxModel
  | aeDecoder
deriving DecidableEq

/-- Where each of the five sub-modules currently lives. -/
structure Placement where
  t5 : Dev
  clip : Dev
  pulid : Dev
  fluxModel : Dev
  aeDecoder : Dev
deriving DecidableEq

/-- Symbolic values: each external library call is a free constructor,
recording its inputs.  Python `None` is the value `pynone` (the code
passes `None` for absent identity embeddings and absent negative
conditioning). -/
inductive Val where
  | pynone
  | noise (seed : Int) (height width : Nat)
  | schedule (numSteps : Nat) (noiseTensor : Val)
  | prepared (prompt : String) (img : Val)
  | resized (imgData : Nat) (maxLen : Nat)
  | idEmb (img : Val)
  | uncondIdEmb (img : Val)
  | txtOf (inp : Val)
  | txtIdsOf (inp : Val)
  | vecOf (inp : Val)
  | denoised (inp : Val) (timesteps : Val) (guidance : ℚ) (idE : Val) (idWeight : ℚ)
      (startStep : Nat) (uncondId : Val) (trueCfg : ℚ) (timestepToStartCfg : Nat)
      (negTxt : Val) (negTxtIds : Val) (negVec : Val) (aggressiveOffload : Bool)
  | floatCast (v : Val)
  | unpacked (v : Val) (height width : Nat)
  | decoded (v : Val)
  | clamped (v : Val)
  | rearranged (v : Val)
  | pilImage (v : Val)
deriving DecidableEq

/-- Events of one `generate_image` call: device-placement actions
(`.to(...)`, `.cpu()`, `components_to_device`, `components_to_gpu`,
`torch.cuda.empty_cache()`) and the external pipeline calls, in program
order. -/
inductive Event where
  | move (m : Module) (d : Dev)
  | modelComponentsToGpu
  | emptyCache
  | callGetNoise (seed : Int) (height width : Nat)
  | callGetSchedule (numSteps : Nat)
  | callPrepare (prompt : String)
  | callGetIdEmbedding (calUncond : Bool)
  | callDenoise
  | callUnpack
  | callDecode
  | callToPIL
deriving DecidableEq

/-- Is this event a device-placement action (module move or CUDA cache
flush)? -/
def isDeviceEvent : Event → Bool
  | .move _ _ => true
  | .modelComponentsToGpu => true
  | .emptyCache => true
  | _ => false

/-- The device-placement actions of a trace, in order. -/
def deviceEvents (es : List Event) : List Event :=
  es.filter isDeviceEvent

/-- The external pipeline calls of a trace, in order. -/
def callEvents (es : List Event) : List Event :=
  es.filter (fun e => !isDeviceEvent e)

/-- Effect of one event on the module placement. -/
def applyEvent (p : Placement) : Event → Placement
  | .move .t5 d => { p with t5 := d }
  | .move .clip d => { p with clip := d }
  | .move .pulid d => { p with pulid := d }
  | .move .fluxModel d => { p with fluxModel := d }
  | .move .aeDecoder d => { p with aeDecoder := d }
  | .modelComponentsToGpu => { p with fluxModel := .gpu }
  | _ => p

/-- Effect of a trace on the module placement. -/
def applyEvents (p : Placement) (es : List Event) : Placement :=
  es.foldl applyEvent p

/-- Mutable state of the `FluxGenerator` object. -/
structure GenState where
  offload : Bool
  aggressiveOffload : Bool
  device : Dev
  placement : Placement
  t5MaxLength : Nat
deriving DecidableEq

/-- Arguments of `FluxGenerator.generate_image`.  The uploaded reference
image (a numpy array in the code) is opaque data, represented by a `Nat`
identifier. -/
structure GenArgs where
  width : Nat
  height : Nat
  numSteps : Nat
  startStep : Nat
  guidance : ℚ
  seed : Int
  prompt : String
  idImage : Option Nat := none
  idWeight : ℚ := 1
  negPrompt : String := ""
  trueCfg : ℚ := 1
  timestepToStartCfg : Nat := 1
  maxSequenceLength : Nat := 128
deriving DecidableEq

/-- Decimal digit characters.  Inputs `0..9` are the digits; the catch-all
is never reached by the renderer below. -/
def digitChar (d : Nat) : Char :=
  match d with
  | 0 => '0' | 1 => '1' | 2 => '2' | 3 => '3' | 4 => '4'
  | 5 => '5' | 6 => '6' | 7 => '7' | 8 => '8' | 9 => '9'
  | _ => '?'

/-- Fuel-bounded most-significant-first decimal rendering (the fuel only
bounds the recursion depth; `fuel = n` is always sufficient). -/
def toDecAux : Nat → Nat → List Char → List Char
  | 0, _, ds => ds
  | fuel + 1, n, ds =>
      if n < 10 then digitChar n :: ds
      else toDecAux fuel (n / 10) (digitChar (n % 10) :: ds)

/-- Python `str` on a nonnegative integer: standard decimal notation. -/
def pyStrNat (n : Nat) : String :=
  if n = 0 then "0" else String.mk (toDecAux n n [])

/-- Python `str` on an `int`: decimal notation with a leading minus sign
for negative values. -/
def pyStrInt (n : Int) : String :=
  if n < 0 then "-" ++ pyStrNat (-n).toNat else pyStrNat n.toNat

/-- `use_true_cfg = abs(true_cfg - 1.0) > 1e-2` (api.py line 119). -/
def useTrueCfgOf (trueCfg : ℚ) : Bool :=
  decide (|trueCfg - 1| > 1 / 100)

/-- What the code returns: `(img, str(opts.seed), debug_img_list)`; the
debug image list is opaque external state and is not modelled.  `seedUsed`
is bookkeeping: the integer whose decimal string is returned. -/
structure GenResult where
  img : Val
  seedStr : String
  seedUsed : Int
deriving DecidableEq

/-- Outcome of one `generate_image` call: the returned result, the
denoised latent returned by `denoise` (bookkeeping, it is a sub-term of
`result.img`), the event trace, and the generator state after the call. -/
structure GenOutcome where
  result : GenResult
  denoisedLatent : Val
  events : List Event
  post : GenState
deriving DecidableEq

/-- Model of `FluxGenerator.generate_image` (api.py lines 82-211).

External nondeterminism is an explicit input: `drawnSeed` is the value of
`torch.Generator(device="cpu").seed()`, drawn only when the normalised
seed is `None` (torch returns a nonnegative 64-bit value, so it is a
`Nat`).  Tensors produced on `self.device` stay there, so the
`x.device` argument of `self.ae.decoder.to(x.device)` is `g.device`.
The PuLID pipeline's `get_id_embedding(id_image, cal_uncond=...)` returns
the identity embedding and, exactly when `cal_uncond` is set, the
unconditional identity embedding (otherwise `None`). -/
def generateImage (g : GenState) (a : GenArgs) (drawnSeed : Nat) : GenOutcome :=
  -- self.t5.max_length = max_sequence_length
  let g1 : GenState := { g with t5MaxLength := a.maxSequenceLength }
  -- seed = int(seed); if seed == -1: seed = None
  let seed1 : Option Int := if a.seed = -1 then none else some a.seed
  -- if opts.seed is None: opts.seed = torch.Generator(device="cpu").seed()
  let seedUsed : Int :=
    match seed1 with
    | none => (drawnSeed : Int)
    | some s => s
  let useTrueCfg : Bool := useTrueCfgOf a.trueCfg
  -- x = get_noise(1, opts.height, opts.width, device, bfloat16, seed)
  let x : Val := .noise seedUsed a.height a.width
  -- timesteps = get_schedule(opts.num_steps, x.shape[-1]*x.shape[-2]//4, shift=True)
  let timesteps : Val := .schedule a.numSteps x
  let ev1 : List Event := [.callGetNoise seedUsed a.height a.width, .callGetSchedule a.numSteps]
  -- if self.offload: t5, clip to self.device
  let ev2 : List Event := if g1.offload then [.move .t5 g1.device, .move .clip g1.device] else []
  -- inp = prepare(t5, clip, img=x, prompt=opts.prompt)
  let inp : Val := .prepared a.prompt x
  let ev3 : List Event := [.callPrepare a.prompt]
  -- inp_neg = prepare(t5, clip, img=x, prompt=neg_prompt) if use_true_cfg else None
  let ev4 : List Event := if useTrueCfg then [Event.callPrepare a.negPrompt] else []
  -- if self.offload: t5, clip to cpu; empty_cache; pulid components to cuda
  let ev5 : List Event :=
    if g1.offload then [.move .t5 .cpu, .move .clip .cpu, .emptyCache, .move .pulid .gpu]
    else []
  -- id_image branch: resize, get_id_embedding(id_image, cal_uncond=use_true_cfg)
  let idEmbeddings : Val :=
    match a.idImage with
    | some d => .idEmb (.resized d 1024)
    | none => .pynone
  let uncondIdEmbeddings : Val :=
    match a.idImage with
    | some d => if useTrueCfg then .uncondIdEmb (.resized d 1024) else .pynone
    | none => .pynone
  let ev6 : List Event :=
    match a.idImage with
    | some _ => [Event.callGetIdEmbedding useTrueCfg]
    | none => []
  -- if self.offload: pulid components to cpu; empty_cache; model to gpu
  let ev7 : List Event :=
    if g1.offload then
      [.move .pulid .cpu, .emptyCache] ++
        (if g1.aggressiveOffload then [Event.modelComponentsToGpu]
         else [Event.move .fluxModel g1.device])
    else []
  -- neg_txt / neg_txt_ids / neg_vec = inp_neg[...] if use_true_cfg else None
  let negTxt : Val := if useTrueCfg then .txtOf (.prepared a.negPrompt x) else .pynone
  let negTxtIds : Val := if useTrueCfg then .txtIdsOf (.prepared a.negPrompt x) else .pynone
  let negVec : Val := if useTrueCfg then .vecOf (.prepared a.negPrompt x) else .pynone
  -- x = denoise(self.model, **inp, ...)
  let x2 : Val := .denoised inp timesteps a.guidance idEmbeddings a.idWeight a.startStep
      uncondIdEmbeddings a.trueCfg a.timestepToStartCfg negTxt negTxtIds negVec
      g1.aggressiveOffload
  let ev8 : List Event := [.callDenoise]
  -- if self.offload: model to cpu; empty_cache; ae.decoder to x.device
  let ev9 : List Event :=
    if g1.offload then [.move .fluxModel .cpu, .emptyCache, .move .aeDecoder g1.device]
    else []
  -- x = unpack(x.float(), opts.height, opts.width); x = self.ae.decode(x)
  let x3 : Val := .unpacked (.floatCast x2) a.height a.width
  let x4 : Val := .decoded x3
  let ev10 : List Event := [.callUnpack, .callDecode]
  -- if self.offload: ae.decoder to cpu; empty_cache
  let ev11 : List Event := if g1.offload then [.move .aeDecoder .cpu, .emptyCache] else []
  -- x = x.clamp(-1, 1); x = rearrange(x[0], ...); img = Image.fromarray(...)
  let img : Val := .pilImage (.rearranged (.clamped x4))
  let ev12 : List Event := [.callToPIL]
  let events : List Event :=
    ev1 ++ ev2 ++ ev3 ++ ev4 ++ ev5 ++ ev6 ++ ev7 ++ ev8 ++ ev9 ++ ev10 ++ ev11 ++ ev12
  { result := { img := img, seedStr := pyStrInt seedUsed, seedUsed := seedUsed }
    denoisedLatent := x2
    events := events
    post := { g1 with placement := applyEvents g1.placement events } }

/-- Model of `FluxGenerator.__init__` (api.py lines 47-80) composed with
`get_models` (lines 34-43): `t5` and `clip` are loaded on `device`; the
diffusion model, the autoencoder and the PuLID pipeline are loaded on
`"cpu" if offload else device`.  (With offload, lines 71-79 additionally
point the face-helper device attributes at CUDA; the component weights
stay where they were loaded.)  `load_t5(device, max_length=128)` fixes
the initial `t5.max_length` at 128. -/
def FluxGenerator.init (device : Dev) (offload aggressiveOffload : Bool) : GenState :=
  { offload := offload
    aggressiveOffload := aggressiveOffload
    device := device
    placement :=
      { t5 := device
        clip := device
        pulid := if offload then .cpu else device
        fluxModel := if offload then .cpu else device
        aeDecoder := if offload then .cpu else device }
    t5MaxLength := 128 }

/-- `generator = FluxGenerator("flux-dev", "cuda", False, False, args)`
(api.py line 215): the single module-level generator object. -/
def generator : GenState :=
  FluxGenerator.init .gpu false false

/-- `CURRENT_FOLDER = os.path.dirname(os.path.abspath(__file__))`: the
directory holding the script; its concrete value is irrelevant to the
claims. -/
def currentFolder : String := "/app"

/-- `OUTPUT_FOLDER = os.path.join(CURRENT_FOLDER, "output")` (api.py
line 27). -/
def outputFolder : String := currentFolder ++ "/output"

/-- The JSON body returned by the POST handler (api.py lines 261-267):
the saved file's name, the seed string, and the wall-clock duration. -/
structure JsonContent where
  image : String
  seed : String
  generationTime : ℚ
deriving DecidableEq

/-- The responses the two handlers can produce: a `JSONResponse`, a
`FileResponse` (path, media type, download file name), or a raised
`HTTPException`. -/
inductive Response where
  | json (content : JsonContent)
  | file (path : String) (mediaType : String) (filename : String)
  | httpError (status : Nat) (detail : String)
deriving DecidableEq

/-- The files on disk under the server's control, newest first (saving a
file prepends, so lookup finds the most recent content of a path). -/
abbrev FileStore : Type := List (String × Val)

/-- The image data an HTTP response actually delivers to the client: a
`FileResponse` streams the stored content of its path; a `JSONResponse`
or an error delivers none. -/
def Response.imagePayload (store : FileStore) : Response → Option Val
  | .json _ => none
  | .file path _ _ => List.lookup path store
  | .httpError _ _ => none

/-- The whole persistent state of the server process: the single
module-level generator object and the files it has written. -/
structure ServerState where
  generator : GenState
  files : FileStore
deriving DecidableEq

/-- Server state at module load: the one `FluxGenerator` built on line
215, and no files written yet. -/
def initServerState : ServerState :=
  { generator := generator, files := [] }

/-- Query parameters of `POST /generate_image` with their declared
defaults (api.py lines 219-232).  The optional upload is opaque data;
`Image.open` followed by `np.array` on it is modelled as passing the
opaque data through unchanged. -/
structure EndpointParams where
  width : Nat := 1024
  height : Nat := 1024
  numSteps : Nat := 10
  startStep : Nat := 4
  guidance : ℚ := 4
  seed : Int := 17733156847328193625
  prompt : String := "portrait, side view"
  idWeight : ℚ := 1
  negPrompt : String := ""
  trueCfg : ℚ := 1
  timestepToStartCfg : Nat := 1
  maxSequenceLength : Nat := 128
  idImage : Option Nat := none
deriving DecidableEq

/-- The positional argument list the endpoint passes to
`generator.generate_image` (api.py lines 240-254). -/
def toGenArgs (p : EndpointParams) : GenArgs :=
  { width := p.width
    height := p.height
    numSteps := p.numSteps
    startStep := p.startStep
    guidance := p.guidance
    seed := p.seed
    prompt := p.prompt
    idImage := p.idImage
    idWeight := p.idWeight
    negPrompt := p.negPrompt
    trueCfg := p.trueCfg
    timestepToStartCfg := p.timestepToStartCfg
    maxSequenceLength := p.maxSequenceLength }

/-- Model of the `POST /generate_image` handler (api.py lines 218-267).
External nondeterminism is explicit input: `u` is `str(uuid.uuid4())`,
`drawnSeed` the torch CPU generator draw, `t0`/`t1` the two `time.time()`
readings.  The handler runs the generator, saves the image under
`u ++ ".png"` in the output folder, and answers with a JSON body holding
that file name, the seed string and the elapsed time. -/
def generate_image_endpoint (s : ServerState) (p : EndpointParams) (u : String)
    (drawnSeed : Nat) (t0 t1 : ℚ) : Response × ServerState :=
  let out := generateImage s.generator (toGenArgs p) drawnSeed
  let imageName := u ++ ".png"
  let imagePath := outputFolder ++ "/" ++ imageName
  (Response.json { image := imageName, seed := out.result.seedStr, generationTime := t1 - t0 },
   { generator := out.post, files := (imagePath, out.result.img) :: s.files })

/-- Characters accepted by the character class `[0-9a-fA-F-]`. -/
def isHexOrDash (c : Char) : Bool :=
  ('0' ≤ c && c ≤ '9') || ('a' ≤ c && c ≤ 'f') || ('A' ≤ c && c ≤ 'F') || c = '-'

/-- Does a character list consist of exactly 36 characters of the class
`[0-9a-fA-F-]` followed by `.png`? -/
def coreMatchL (l : List Char) : Bool :=
  decide (l.length = 40) && (l.take 36).all isHexOrDash &&
    decide (l.drop 36 = ['.', 'p', 'n', 'g'])

/-- Python's `re.match(r"^[0-9a-fA-F-]{36}\.png$", s)` as a Boolean:
`re.match` anchors at the start, and Python's `$` matches at the end of
the string or just before a single trailing newline. -/
def reMatchUuidPng (s : String) : Bool :=
  coreMatchL s.data ||
    (decide (s.data.getLast? = some '\n') && coreMatchL s.data.dropLast)

/-- Model of the `GET /download_image/{image_name}` handler (api.py lines
271-283): reject names not matching the UUID-png pattern with HTTP 400,
answer HTTP 404 when no such file exists in the output folder, and
otherwise serve the file as `image/png`. -/
def download_image (store : FileStore) (imageName : String) : Response :=
  if !reMatchUuidPng imageName then
    Response.httpError 400 ("Invalid image name format")
  else
    let imagePath := outputFolder ++ "/" ++ imageName
    if (List.lookup imagePath store).isSome then
      Response.file imagePath ("image/png") imageName
    else
      Response.httpError 404 ("Image not found")

/-- A string of the shape `str(uuid.uuid4())` produces: 36 characters,
each a hex digit or a dash. -/
def isUuidCore (u : String) : Bool :=
  decide (u.data.length = 36) && u.data.all isHexOrDash

/-- Modelled from the spec: the repository's other near-duplicate version
of this script, which "writes a single fixed output file" instead of a
UUID-named one, and has no download endpoint.  The spec states the two
versions "differ only in output-file naming and the extra download
endpoint", so this version runs the same generator call and differs only
in the name under which the image is saved and reported.  The fixed file
name itself is not given by the spec; `fixedOutputName` stands for it. -/
def fixedOutputName : String := "output.png"

/-- Modelled from the spec: the POST handler of the fixed-output-file
version of the script (see `fixedOutputName`). -/
def generate_image_endpoint_fixedFile (s : ServerState) (p : EndpointParams)
    (drawnSeed : Nat) (t0 t1 : ℚ) : Response × ServerState :=
  let out := generateImage s.generator (toGenArgs p) drawnSeed
  let imagePath := outputFolder ++ "/" ++ fixedOutputName
  (Response.json { image := fixedOutputName, seed := out.result.seedStr, generationTime := t1 - t0 },
   { generator := out.post, files := (imagePath, out.result.img) :: s.files })

/-- A file name is safe to join onto the output folder when it contains no
path separator and no two consecutive dots (so no `..` component). -/
def safeImageName (s : String) : Prop :=
  (∀ c ∈ s.data, c ≠ '/' ∧ c ≠ '\\') ∧ ¬ ['.', '.'] <:+: s.data

/-- The prompts passed to `prepare`, in call order. -/
def preparePrompts (es : List Event) : List String :=
  es.filterMap (fun e => match e with | .callPrepare p => some p | _ => none)

/-- The `cal_uncond` flags passed to `get_id_embedding`, in call order. -/
def idEmbeddingCalls (es : List Event) : List Bool :=
  es.filterMap (fun e => match e with | .callGetIdEmbedding b => some b | _ => none)

/-! ### Helper lemmas -/

theorem useTrueCfgOf_one : useTrueCfgOf 1 = false := by
  norm_num [useTrueCfgOf]

theorem applyEvent_of_not_device {e : Event} (h : isDeviceEvent e = false) (p : Placement) :
    applyEvent p e = p := by
  cases e <;> simp_all [isDeviceEvent, applyEvent]

theorem applyEvents_of_no_device (p : Placement) :
    ∀ es : List Event, deviceEvents es = [] → applyEvents p es = p := by
  intro es
  induction es generalizing p with
  | nil => intro _; rfl
  | cons e es ih =>
      intro h
      rw [deviceEvents, List.filter_cons] at h
      have hd : isDeviceEvent e = false := by
        by_contra hx
        simp only [Bool.not_eq_false] at hx
        rw [hx] at h
        simp at h
      rw [hd] at h
      simp only [Bool.false_eq_true, if_false] at h
      show applyEvents p (e :: es) = p
      rw [applyEvents, List.foldl_cons, applyEvent_of_not_device hd]
      exact ih p h

theorem digitChar_digit : ∀ d < 10, ('0' ≤ digitChar d && digitChar d ≤ '9') = true := by
  decide

theorem toDecAux_digits :
    ∀ (fuel n : Nat) (ds : List Char),
      (∀ c ∈ ds, ('0' ≤ c && c ≤ '9') = true) →
      ∀ c ∈ toDecAux fuel n ds, ('0' ≤ c && c ≤ '9') = true := by
  intro fuel
  induction fuel with
  | zero => intro n ds h; simpa [toDecAux] using h
  | succ fuel ih =>
      intro n ds h c hc
      rw [toDecAux] at hc
      by_cases hn : n < 10
      · rw [if_pos hn] at hc
        rcases List.mem_cons.mp hc with h1 | h2
        · subst h1; exact digitChar_digit n hn
        · exact h c h2
      · rw [if_neg hn] at hc
        refine ih (n / 10) (digitChar (n % 10) :: ds) ?_ c hc
        intro c' hc'
        rcases List.mem_cons.mp hc' with h1 | h2
        · subst h1; exact digitChar_digit (n % 10) (Nat.mod_lt n (by norm_num))
        · exact h c' h2

theorem pyStrNat_digits (n : Nat) :
    ∀ c ∈ (pyStrNat n).data, ('0' ≤ c && c ≤ '9') = true := by
  rw [pyStrNat]
  by_cases h : n = 0
  · rw [if_pos h]; decide
  · rw [if_neg h]
    exact toDecAux_digits n n [] (by intro c hc; cases hc)

theorem pyStrNat_ne_of_bad (s : String) (b : Char) (hc : b ∈ s.data)
    (hbad : ('0' ≤ b && b ≤ '9') = false) (n : Nat) : pyStrNat n ≠ s := by
  intro he
  have := pyStrNat_digits n b (by rw [he]; exact hc)
  rw [hbad] at this
  exact Bool.false_ne_true this

theorem toDecAux_length_mono :
    ∀ (fuel n : Nat) (ds : List Char), ds.length ≤ (toDecAux fuel n ds).length := by
  intro fuel
  induction fuel with
  | zero => intro n ds; simp [toDecAux]
  | succ fuel ih =>
      intro n ds
      rw [toDecAux]
      by_cases hn : n < 10
      · rw [if_pos hn]; simp
      · rw [if_neg hn]
        calc ds.length ≤ (digitChar (n % 10) :: ds).length := by simp
          _ ≤ _ := ih (n / 10) (digitChar (n % 10) :: ds)

theorem toDecAux_length_succ (fuel n : Nat) (ds : List Char) (h : 1 ≤ fuel) :
    ds.length + 1 ≤ (toDecAux fuel n ds).length := by
  rcases fuel with _ | fuel'
  · omega
  · rw [toDecAux]
    by_cases hn : n < 10
    · rw [if_pos hn]; simp
    · rw [if_neg hn]
      calc ds.length + 1 = (digitChar (n % 10) :: ds).length := by simp
        _ ≤ _ := toDecAux_length_mono fuel' (n / 10) (digitChar (n % 10) :: ds)

theorem pyStrNat_length_ge_two (n : Nat) (h : 10 ≤ n) : 2 ≤ (pyStrNat n).data.length := by
  rw [pyStrNat, if_neg (by omega)]
  show 2 ≤ (toDecAux n n []).length
  have hn : n = (n - 1) + 1 := by omega
  rw [hn, toDecAux, if_neg (by omega)]
  have h2 := toDecAux_length_succ (n - 1) (((n - 1) + 1) / 10)
    [digitChar (((n - 1) + 1) % 10)] (by omega)
  simp only [List.length_cons, List.length_nil] at h2
  omega

theorem pyStrNat_small_ne_one {m : Nat} (h2 : 2 ≤ m) (h10 : m < 10) : pyStrNat m ≠ "1" := by
  interval_cases m <;> decide

theorem pyStrInt_ne_neg_one {n : Int} (h : n ≠ -1) : pyStrInt n ≠ "-1" := by
  rw [pyStrInt]
  by_cases hneg : n < 0
  · rw [if_pos hneg]
    intro he
    have hdata : ('-' :: (pyStrNat (-n).toNat).data) = ['-', '1'] := by
      have := congrArg String.data he
      simpa [String.data_append] using this
    have hone : (pyStrNat (-n).toNat).data = ['1'] := by
      simpa using hdata
    have hm : 2 ≤ (-n).toNat := by omega
    by_cases h10 : (-n).toNat < 10
    · exact pyStrNat_small_ne_one hm h10 (by apply String.ext; simpa using hone)
    · have hlen := pyStrNat_length_ge_two (-n).toNat (by omega)
      rw [hone] at hlen
      simp at hlen
  · rw [if_neg hneg]
    exact pyStrNat_ne_of_bad ("-1") ('-') (by decide) (by decide) n.toNat

theorem pyStrInt_ne_none_str (n : Int) : pyStrInt n ≠ "None" := by
  rw [pyStrInt]
  by_cases hneg : n < 0
  · rw [if_pos hneg]
    intro he
    have hdata : ('-' :: (pyStrNat (-n).toNat).data) = ['N', 'o', 'n', 'e'] := by
      have h2 := congrArg String.data he
      simp only [String.data_append] at h2
      exact h2
    exact absurd (List.head_eq_of_cons_eq hdata) (by decide)
  · rw [if_neg hneg]
    exact pyStrNat_ne_of_bad ("None") ('N') (by decide) (by decide) n.toNat

theorem isHexOrDash_not_special {c : Char} (h : isHexOrDash c = true) :
    c ≠ '/' ∧ c ≠ '\\' ∧ c ≠ '.' := by
  refine ⟨fun hc => ?_, fun hc => ?_, fun hc => ?_⟩ <;> subst hc <;>
    exact absurd h (by decide)

theorem count_ge_two_of_dotdot {l : List Char} (h : ['.', '.'] <:+: l) :
    2 ≤ l.count '.' := by
  obtain ⟨s, t, heq⟩ := h
  rw [← heq]
  simp [List.count_append]
  omega

theorem coreMatchL_props {l : List Char} (h : coreMatchL l = true) :
    (∀ c ∈ l, c ≠ '/' ∧ c ≠ '\\') ∧ l.count '.' = 1 := by
  rw [coreMatchL, Bool.and_eq_true, Bool.and_eq_true] at h
  obtain ⟨⟨_, hall⟩, hdrop⟩ := h
  rw [List.all_eq_true] at hall
  rw [decide_eq_true_iff] at hdrop
  have hsplit : l = l.take 36 ++ l.drop 36 := (List.take_append_drop 36 l).symm
  constructor
  · intro c hc
    rw [hsplit] at hc
    rcases List.mem_append.mp hc with h1 | h2
    · have hx := isHexOrDash_not_special (hall c h1)
      exact ⟨hx.1, hx.2.1⟩
    · rw [hdrop] at h2
      simp only [List.mem_cons, List.not_mem_nil, or_false] at h2
      rcases h2 with rfl | rfl | rfl | rfl <;> exact ⟨by decide, by decide⟩
  · conv_lhs => rw [hsplit]
    rw [List.count_append, hdrop]
    have hz : (l.take 36).count '.' = 0 := by
      rw [List.count_eq_zero]
      intro hmem
      exact absurd (hall '.' hmem) (by decide)
    rw [hz]
    decide

theorem reMatch_safe {s : String} (h : reMatchUuidPng s = true) : safeImageName s := by
  rw [reMatchUuidPng, Bool.or_eq_true, Bool.and_eq_true] at h
  rcases h with hcore | ⟨hlast, hcore⟩
  · obtain ⟨hsl, hcount⟩ := coreMatchL_props hcore
    exact ⟨hsl, fun hin => by have := count_ge_two_of_dotdot hin; omega⟩
  · rw [decide_eq_true_iff] at hlast
    have hne : s.data ≠ [] := by
      intro hnil
      rw [hnil] at hlast
      cases hlast
    have hlaste : s.data.getLast hne = '\n' := by
      have := List.getLast?_eq_getLast_of_ne_nil hne
      rw [this] at hlast
      exact Option.some.inj hlast
    have hdec : s.data = s.data.dropLast ++ ['\n'] := by
      conv_lhs => rw [← List.dropLast_append_getLast hne]
      rw [hlaste]
    obtain ⟨hsl, hcount⟩ := coreMatchL_props hcore
    constructor
    · intro c hc
      rw [hdec] at hc
      rcases List.mem_append.mp hc with h1 | h2
      · exact hsl c h1
      · simp only [List.mem_cons, List.not_mem_nil, or_false] at h2
        subst h2
        exact ⟨by decide, by decide⟩
    · intro hin
      rw [hdec] at hin
      have h2 := count_ge_two_of_dotdot hin
      rw [List.count_append] at h2
      have : ([('\n' : Char)].count '.') = 0 := by decide
      omega

theorem reMatch_of_uuidCore {u : String} (h : isUuidCore u = true) :
    reMatchUuidPng (u ++ (".png")) = true := by
  rw [isUuidCore, Bool.and_eq_true] at h
  obtain ⟨hlen, hall⟩ := h
  rw [decide_eq_true_iff] at hlen
  have hdata : (u ++ (".png")).data = u.data ++ ['.', 'p', 'n', 'g'] := by
    rw [String.data_append]
  rw [reMatchUuidPng, Bool.or_eq_true]
  left
  rw [coreMatchL, hdata, Bool.and_eq_true, Bool.and_eq_true]
  refine ⟨⟨?_, ?_⟩, ?_⟩
  · simp [List.length_append, hlen]
  · rw [List.take_left' hlen]
    exact hall
  · simp [List.drop_left' hlen]

theorem download_serves_saved (s : ServerState) (p : EndpointParams) (u : String)
    (drawn : Nat) (t0 t1 : ℚ) (hu : isUuidCore u = true) :
    download_image (generate_image_endpoint s p u drawn t0 t1).2.files (u ++ (".png"))
      = Response.file (outputFolder ++ "/" ++ (u ++ (".png"))) ("image/png") (u ++ (".png")) := by
  rw [download_image, reMatch_of_uuidCore hu]
  simp [generate_image_endpoint, List.lookup]

/-! ### Claim theorems -/

/-- C1: with offload enabled (and the generator device being the GPU, as in
this script), `generate_image` performs its CPU/GPU moves in the fixed
five-stage order: (1) t5 and clip to the GPU before `prepare`; (2) t5 and
clip to CPU and the PuLID components to the GPU before identity embedding;
(3) the PuLID components to CPU and the diffusion model to the GPU before
`denoise`; (4) the diffusion model to CPU and the autoencoder decoder to
the GPU before decoding; (5) the autoencoder decoder back to CPU after
decoding.  The full event trace is completely determined, so no other
order of these moves occurs in any execution. -/
theorem C1_offload_five_stage_schedule (g : GenState) (a : GenArgs) (drawn : Nat)
    (hOff : g.offload = true) (hDev : g.device = Dev.gpu) :
    (generateImage g a drawn).events =
      [.callGetNoise (if a.seed = -1 then (drawn : Int) else a.seed) a.height a.width,
        .callGetSchedule a.numSteps,
        .move .t5 .gpu, .move .clip .gpu,
        .callPrepare a.prompt] ++
      (if useTrueCfgOf a.trueCfg then [Event.callPrepare a.negPrompt] else []) ++
      [.move .t5 .cpu, .move .clip .cpu, .emptyCache, .move .pulid .gpu] ++
      (match a.idImage with
        | some _ => [Event.callGetIdEmbedding (useTrueCfgOf a.trueCfg)]
        | none => []) ++
      [.move .pulid .cpu, .emptyCache] ++
      (if g.aggressiveOffload then [Event.modelComponentsToGpu]
        else [Event.move .fluxModel .gpu]) ++
      [.callDenoise,
        .move .fluxModel .cpu, .emptyCache, .move .aeDecoder .gpu,
        .callUnpack, .callDecode,
        .move .aeDecoder .cpu, .emptyCache,
        .callToPIL] := by
  by_cases hseed : a.seed = -1 <;>
    cases hc : useTrueCfgOf a.trueCfg <;>
      rcases hI : a.idImage with _ | d <;>
        cases hA : g.aggressiveOffload <;>
          simp [generateImage, hOff, hDev, hseed, hc, hI, hA]

/-- Witness for C1 at a concrete offloading generator and the endpoint's
default arguments. -/
theorem C1_offload_five_stage_schedule_witness :
    (generateImage (FluxGenerator.init .gpu true false) (toGenArgs {}) 0).events =
      [.callGetNoise 17733156847328193625 1024 1024,
        .callGetSchedule 10,
        .move .t5 .gpu, .move .clip .gpu,
        .callPrepare ("portrait, side view"),
        .move .t5 .cpu, .move .clip .cpu, .emptyCache, .move .pulid .gpu,
        .move .pulid .cpu, .emptyCache, .move .fluxModel .gpu,
        .callDenoise,
        .move .fluxModel .cpu, .emptyCache, .move .aeDecoder .gpu,
        .callUnpack, .callDecode,
        .move .aeDecoder .cpu, .emptyCache,
        .callToPIL] := by
  have h := C1_offload_five_stage_schedule (FluxGenerator.init .gpu true false)
    (toGenArgs {}) 0 rfl rfl
  simpa [toGenArgs, FluxGenerator.init, useTrueCfgOf_one] using h

/-- C2: with offload disabled, `generate_image` performs no CPU/GPU move of
t5, clip, the PuLID components, the diffusion model, or the autoencoder
decoder, flushes no CUDA cache, and leaves the device placement of all
sub-modules exactly as it was before the call. -/
theorem C2_no_offload_no_device_actions (g : GenState) (a : GenArgs) (drawn : Nat)
    (hOff : g.offload = false) :
    deviceEvents (generateImage g a drawn).events = [] ∧
    (generateImage g a drawn).post.placement = g.placement := by
  have hd : deviceEvents (generateImage g a drawn).events = [] := by
    cases hc : useTrueCfgOf a.trueCfg <;>
      rcases hI : a.idImage with _ | d <;>
        simp [generateImage, deviceEvents, hOff, hc, hI, isDeviceEvent, List.filter_append]
  refine ⟨hd, ?_⟩
  have hpost : (generateImage g a drawn).post.placement
      = applyEvents g.placement (generateImage g a drawn).events := rfl
  rw [hpost]
  exact applyEvents_of_no_device g.placement _ hd

/-- Witness for C2 at the script's module-level generator (built with
`offload = False`) and the endpoint's default arguments. -/
theorem C2_no_offload_no_device_actions_witness :
    deviceEvents (generateImage generator (toGenArgs {}) 0).events = [] ∧
    (generateImage generator (toGenArgs {}) 0).post.placement = generator.placement :=
  C2_no_offload_no_device_actions generator (toGenArgs {}) 0 rfl

/-- C4: on every call, `generate_image` runs the external pipeline in the
fixed linear order get_noise, get_schedule, prepare (plus the optional
negative-prompt prepare), optionally get_id_embedding, denoise, unpack,
autoencoder decode, PIL conversion — no step skipped or reordered — and
returns the decoded image together with the seed string. -/
theorem C4_pipeline_linear_order (g : GenState) (a : GenArgs) (drawn : Nat) :
    callEvents (generateImage g a drawn).events =
      [.callGetNoise (if a.seed = -1 then (drawn : Int) else a.seed) a.height a.width,
        .callGetSchedule a.numSteps,
        .callPrepare a.prompt] ++
      (if useTrueCfgOf a.trueCfg then [Event.callPrepare a.negPrompt] else []) ++
      (match a.idImage with
        | some _ => [Event.callGetIdEmbedding (useTrueCfgOf a.trueCfg)]
        | none => []) ++
      [.callDenoise, .callUnpack, .callDecode, .callToPIL] ∧
    (generateImage g a drawn).result.img =
      Val.pilImage (.rearranged (.clamped (.decoded (.unpacked
        (.floatCast (generateImage g a drawn).denoisedLatent) a.height a.width)))) ∧
    (generateImage g a drawn).result.seedStr =
      pyStrInt (if a.seed = -1 then (drawn : Int) else a.seed) := by
  refine ⟨?_, rfl, ?_⟩
  · by_cases hseed : a.seed = -1 <;>
      cases hOff : g.offload <;>
        cases hc : useTrueCfgOf a.trueCfg <;>
          rcases hI : a.idImage with _ | d <;>
            cases hA : g.aggressiveOffload <;>
              simp [generateImage, callEvents, isDeviceEvent, List.filter_append,
                hseed, hOff, hc, hI, hA]
  · by_cases hseed : a.seed = -1 <;> simp [generateImage, hseed]

/-- C9: `generate_image` normalises the seed before use: the seed used is
the argument unless that equals -1, in which case it is the (nonnegative)
draw from the CPU torch generator; the noise call receives exactly that
seed; and the seed string returned is its decimal representation, hence
never "-1" and never "None". -/
theorem C9_seed_normalisation (g : GenState) (a : GenArgs) (drawn : Nat) :
    (generateImage g a drawn).result.seedUsed
        = (if a.seed = -1 then (drawn : Int) else a.seed) ∧
    (generateImage g a drawn).result.seedUsed ≠ -1 ∧
    (generateImage g a drawn).result.seedStr
        = pyStrInt (generateImage g a drawn).result.seedUsed ∧
    (generateImage g a drawn).result.seedStr ≠ "-1" ∧
    (generateImage g a drawn).result.seedStr ≠ "None" ∧
    (generateImage g a drawn).events.head?
        = some (.callGetNoise (generateImage g a drawn).result.seedUsed a.height a.width) := by
  have h1 : (generateImage g a drawn).result.seedUsed
      = (if a.seed = -1 then (drawn : Int) else a.seed) := by
    by_cases hseed : a.seed = -1 <;> simp [generateImage, hseed]
  have hne : (generateImage g a drawn).result.seedUsed ≠ -1 := by
    rw [h1]
    by_cases hseed : a.seed = -1
    · rw [if_pos hseed]; omega
    · rw [if_neg hseed]; exact hseed
  have hstr : (generateImage g a drawn).result.seedStr
      = pyStrInt (generateImage g a drawn).result.seedUsed := rfl
  refine ⟨h1, hne, hstr, ?_, ?_, rfl⟩
  · rw [hstr]; exact pyStrInt_ne_neg_one hne
  · rw [hstr]; exact pyStrInt_ne_none_str _

/-- C10: negative conditioning takes effect exactly when
`abs(true_cfg - 1.0) > 1e-2`: under that condition (and only then) the
negative prompt is encoded with `prepare`, the unconditional identity
embedding is requested (`cal_uncond`), and the negative text, ids and
vector are passed to `denoise`; otherwise all negative-conditioning
arguments are `None` and a supplied `neg_prompt` has no effect on any part
of the outcome. -/
theorem C10_true_cfg_gates_negative_conditioning (g : GenState) (a : GenArgs) (drawn : Nat)
    (p' : String) :
    preparePrompts (generateImage g a drawn).events
        = a.prompt :: (if useTrueCfgOf a.trueCfg then [a.negPrompt] else []) ∧
    idEmbeddingCalls (generateImage g a drawn).events
        = (match a.idImage with
            | some _ => [useTrueCfgOf a.trueCfg]
            | none => []) ∧
    (generateImage g a drawn).denoisedLatent =
      Val.denoised
        (.prepared a.prompt (.noise (generateImage g a drawn).result.seedUsed a.height a.width))
        (.schedule a.numSteps (.noise (generateImage g a drawn).result.seedUsed a.height a.width))
        a.guidance
        (match a.idImage with
          | some d => Val.idEmb (.resized d 1024)
          | none => Val.pynone)
        a.idWeight a.startStep
        (match a.idImage with
          | some d =>
              if useTrueCfgOf a.trueCfg then Val.uncondIdEmb (.resized d 1024) else Val.pynone
          | none => Val.pynone)
        a.trueCfg a.timestepToStartCfg
        (if useTrueCfgOf a.trueCfg then
          Val.txtOf (.prepared a.negPrompt
            (.noise (generateImage g a drawn).result.seedUsed a.height a.width))
         else Val.pynone)
        (if useTrueCfgOf a.trueCfg then
          Val.txtIdsOf (.prepared a.negPrompt
            (.noise (generateImage g a drawn).result.seedUsed a.height a.width))
         else Val.pynone)
        (if useTrueCfgOf a.trueCfg then
          Val.vecOf (.prepared a.negPrompt
            (.noise (generateImage g a drawn).result.seedUsed a.height a.width))
         else Val.pynone)
        g.aggressiveOffload ∧
    (useTrueCfgOf a.trueCfg = false →
      generateImage g { a with negPrompt := p' } drawn = generateImage g a drawn) := by
  refine ⟨?_, ?_, ?_, ?_⟩
  · cases hOff : g.offload <;>
      cases hc : useTrueCfgOf a.trueCfg <;>
        rcases hI : a.idImage with _ | d <;>
          cases hA : g.aggressiveOffload <;>
            simp [generateImage, preparePrompts, List.filterMap_append, hOff, hc, hI, hA]
  · cases hOff : g.offload <;>
      cases hc : useTrueCfgOf a.trueCfg <;>
        rcases hI : a.idImage with _ | d <;>
          cases hA : g.aggressiveOffload <;>
            simp [generateImage, idEmbeddingCalls, List.filterMap_append, hOff, hc, hI, hA]
  · cases hc : useTrueCfgOf a.trueCfg <;>
      rcases hI : a.idImage with _ | d <;>
        simp [generateImage, hc, hI]
  · intro hu
    simp [generateImage, hu]

/-- Witness for C10 at the default arguments (`true_cfg = 1.0`): replacing
the negative prompt leaves the whole outcome unchanged. -/
theorem C10_true_cfg_gates_negative_conditioning_witness :
    generateImage generator { toGenArgs {} with negPrompt := ("a dog") } 0
      = generateImage generator (toGenArgs {}) 0 :=
  (C10_true_cfg_gates_negative_conditioning generator (toGenArgs {}) 0 ("a dog")).2.2.2
    (by simp [toGenArgs, useTrueCfgOf_one])

/-- C3 counterexample: as stated, the claim is false on this version of
the script.  At the endpoint's default request the POST handler's response
is a `JSONResponse` carrying the saved file's name; it delivers no image
payload, in particular not the generated image. -/
theorem C3_response_lacks_image_counterexample :
    Response.imagePayload
        (generate_image_endpoint initServerState {} ("00000000-0000-4000-8000-000000000000")
          0 0 0).2.files
        (generate_image_endpoint initServerState {} ("00000000-0000-4000-8000-000000000000")
          0 0 0).1
      ≠ some (generateImage initServerState.generator (toGenArgs {}) 0).result.img := by
  intro h
  exact Option.noConfusion h

/-- C3 amended: the POST handler does not return the generated image in
its own response; it saves the image and returns the file's name in a JSON
body, and the image is delivered to the caller by the separate
`GET /download_image/{name}` endpoint — both when a reference image is
uploaded and when none is. -/
theorem C3_image_via_download_endpoint (s : ServerState) (p : EndpointParams) (u : String)
    (drawn : Nat) (t0 t1 : ℚ) (hu : isUuidCore u = true) :
    (∃ c : JsonContent,
        (generate_image_endpoint s p u drawn t0 t1).1 = Response.json c ∧
        c.image = u ++ (".png")) ∧
    Response.imagePayload (generate_image_endpoint s p u drawn t0 t1).2.files
        (download_image (generate_image_endpoint s p u drawn t0 t1).2.files (u ++ (".png")))
      = some (generateImage s.generator (toGenArgs p) drawn).result.img := by
  refine ⟨⟨_, rfl, rfl⟩, ?_⟩
  rw [download_serves_saved s p u drawn t0 t1 hu]
  simp [Response.imagePayload, generate_image_endpoint, List.lookup]

/-- Witness for the amended C3 at a concrete request with no reference
image: the download endpoint's response carries the generated image. -/
theorem C3_image_via_download_endpoint_witness :
    Response.imagePayload
        (generate_image_endpoint initServerState {} ("00000000-0000-4000-8000-000000000000")
          0 0 0).2.files
        (download_image
          (generate_image_endpoint initServerState {} ("00000000-0000-4000-8000-000000000000")
            0 0 0).2.files
          ("00000000-0000-4000-8000-000000000000" ++ (".png")))
      = some (generateImage initServerState.generator (toGenArgs {}) 0).result.img :=
  (C3_image_via_download_endpoint initServerState {} ("00000000-0000-4000-8000-000000000000")
    0 0 0 (by decide)).2

/-- C5: every successful POST saves the generated image under the freshly
drawn UUID4 name with a `.png` extension inside the output folder, returns
that name in its JSON response, and `GET /download_image/{name}` then
serves that saved file back as a PNG. -/
theorem C5_uuid_named_file_and_download (s : ServerState) (p : EndpointParams) (u : String)
    (drawn : Nat) (t0 t1 : ℚ) (hu : isUuidCore u = true) :
    (generate_image_endpoint s p u drawn t0 t1).1
      = Response.json
          { image := u ++ (".png"),
            seed := (generateImage s.generator (toGenArgs p) drawn).result.seedStr,
            generationTime := t1 - t0 } ∧
    (generate_image_endpoint s p u drawn t0 t1).2.files
      = (outputFolder ++ "/" ++ (u ++ (".png")),
          (generateImage s.generator (toGenArgs p) drawn).result.img) :: s.files ∧
    download_image (generate_image_endpoint s p u drawn t0 t1).2.files (u ++ (".png"))
      = Response.file (outputFolder ++ "/" ++ (u ++ (".png"))) ("image/png") (u ++ (".png")) :=
  ⟨rfl, rfl, download_serves_saved s p u drawn t0 t1 hu⟩

/-- Witness for C5 at a concrete request. -/
theorem C5_uuid_named_file_and_download_witness :
    (generate_image_endpoint initServerState {} ("00000000-0000-4000-8000-000000000000")
        0 0 0).1
      = Response.json
          { image := "00000000-0000-4000-8000-000000000000" ++ (".png"),
            seed := (generateImage initServerState.generator (toGenArgs {}) 0).result.seedStr,
            generationTime := (0 : ℚ) - 0 } ∧
    (generate_image_endpoint initServerState {} ("00000000-0000-4000-8000-000000000000")
        0 0 0).2.files
      = (outputFolder ++ "/" ++ ("00000000-0000-4000-8000-000000000000" ++ (".png")),
          (generateImage initServerState.generator (toGenArgs {}) 0).result.img)
        :: initServerState.files ∧
    download_image
        (generate_image_endpoint initServerState {} ("00000000-0000-4000-8000-000000000000")
          0 0 0).2.files
        ("00000000-0000-4000-8000-000000000000" ++ (".png"))
      = Response.file
          (outputFolder ++ "/" ++ ("00000000-0000-4000-8000-000000000000" ++ (".png")))
          ("image/png") ("00000000-0000-4000-8000-000000000000" ++ (".png")) :=
  C5_uuid_named_file_and_download initServerState {} ("00000000-0000-4000-8000-000000000000")
    0 0 0 (by decide)

/-- C6: the server keeps a single module-level `FluxGenerator`; every POST
request is handled entirely by one `generate_image` call on that same
instance, and the handler's whole effect is the response derived from that
call plus the updated generator and the newly written file — no other
persistent state exists. -/
theorem C6_single_generator_serves_all (s : ServerState) (p : EndpointParams) (u : String)
    (drawn : Nat) (t0 t1 : ℚ) :
    initServerState.generator = FluxGenerator.init Dev.gpu false false ∧
    initServerState.files = [] ∧
    generate_image_endpoint s p u drawn t0 t1
      = (Response.json
            { image := u ++ (".png"),
              seed := (generateImage s.generator (toGenArgs p) drawn).result.seedStr,
              generationTime := t1 - t0 },
          { generator := (generateImage s.generator (toGenArgs p) drawn).post,
            files := (outputFolder ++ "/" ++ (u ++ (".png")),
                (generateImage s.generator (toGenArgs p) drawn).result.img) :: s.files }) :=
  ⟨rfl, rfl, rfl⟩

/-- C7: the UUID-naming version (the source) and the fixed-output-file
version (modelled from the spec) run the same generator call on the same
state: they yield the same post-generator state, save the same generated
image, and return JSON responses identical except for the reported file
name. -/
theorem C7_versions_same_generation (s : ServerState) (p : EndpointParams) (u : String)
    (drawn : Nat) (t0 t1 : ℚ) :
    (generate_image_endpoint_fixedFile s p drawn t0 t1).2.generator
      = (generate_image_endpoint s p u drawn t0 t1).2.generator ∧
    (generate_image_endpoint_fixedFile s p drawn t0 t1).2.files
      = (outputFolder ++ "/" ++ fixedOutputName,
          (generateImage s.generator (toGenArgs p) drawn).result.img) :: s.files ∧
    (generate_image_endpoint s p u drawn t0 t1).2.files
      = (outputFolder ++ "/" ++ (u ++ (".png")),
          (generateImage s.generator (toGenArgs p) drawn).result.img) :: s.files ∧
    (generate_image_endpoint_fixedFile s p drawn t0 t1).1
      = Response.json
          { image := fixedOutputName,
            seed := (generateImage s.generator (toGenArgs p) drawn).result.seedStr,
            generationTime := t1 - t0 } ∧
    (generate_image_endpoint s p u drawn t0 t1).1
      = Response.json
          { image := u ++ (".png"),
            seed := (generateImage s.generator (toGenArgs p) drawn).result.seedStr,
            generationTime := t1 - t0 } :=
  ⟨rfl, rfl, rfl, rfl, rfl⟩

/-- C8: the download endpoint answers HTTP 400 exactly when the requested
name fails the pattern `^[0-9a-fA-F-]{36}\.png$` (with Python's
end-anchor semantics), HTTP 404 exactly when the name matches but no such
file exists in the output folder, and otherwise serves the file from the
output folder; every accepted name contains no path separator and no two
consecutive dots, so the served path stays inside the output folder. -/
theorem C8_download_validation (store : FileStore) (name : String) :
    (download_image store name = Response.httpError 400 ("Invalid image name format")
        ↔ reMatchUuidPng name = false) ∧
    (download_image store name = Response.httpError 404 ("Image not found")
        ↔ (reMatchUuidPng name = true ∧
            (List.lookup (outputFolder ++ "/" ++ name) store).isSome = false)) ∧
    ((reMatchUuidPng name = true ∧
        (List.lookup (outputFolder ++ "/" ++ name) store).isSome = true) →
      download_image store name
        = Response.file (outputFolder ++ "/" ++ name) ("image/png") name) ∧
    (reMatchUuidPng name = true → safeImageName name) := by
  refine ⟨?_, ?_, ?_, fun hm => reMatch_safe hm⟩ <;>
    cases hm : reMatchUuidPng name <;>
      cases hl : (List.lookup (outputFolder ++ "/" ++ name) store).isSome <;>
        simp [download_image, hm, hl]

/-- Witness for C8: a well-formed name that is absent from an empty store
is answered with HTTP 404, and every accepted name is safe to join onto
the output folder. -/
theorem C8_download_validation_witness :
    download_image [] ("00000000-0000-4000-8000-000000000000.png")
      = Response.httpError 404 ("Image not found") ∧
    safeImageName ("00000000-0000-4000-8000-000000000000.png") :=
  ⟨(C8_download_validation [] ("00000000-0000-4000-8000-000000000000.png")).2.1.mpr
      ⟨by decide, rfl⟩,
    (C8_download_validation [] ("00000000-0000-4000-8000-000000000000.png")).2.2.2 (by decide)⟩

end PuLIDApi
